import Mathlib

/-
Verification of the authentication and authorization core of the everato
event-management platform: the JWT TokenSigner (src/pkg/jwt.go), the
user-level AuthMiddleware and admin-level AdminMiddleware guards
(src/internal/middlewares/authguard_middleware.go, admin middleware file),
and the admin-service permission checks (admin_delete.go, UpdateAdmin,
CreateAdmin).

Machine integers do not occur on the verified paths; times are modelled as
Int (unix seconds).  The HMAC primitive is modelled as an ideal MAC: a
signature is determined by (algorithm, key, payload) and verification is
structural equality, which excludes hash collisions but is otherwise
faithful to the golang-jwt/v5 library calls made by the source.
-/

namespace Everato

/-- Signing algorithms as seen by the golang-jwt library: the HMAC family
(HS256/HS384/HS512) plus representative non-HMAC methods that an attacker
could place in a token header. -/
inductive Alg
  | HS256
  | HS384
  | HS512
  | RS256
  | ES256
deriving DecidableEq, Repr

/-- Membership in the HMAC family, the check performed by the keyfunc in
TokenSigner.Verify (jwt.go line 31: type assertion to *jwt.SigningMethodHMAC). -/
def Alg.isHMAC : Alg → Bool
  | .HS256 => true
  | .HS384 => true
  | .HS512 => true
  | .RS256 => false
  | .ES256 => false

/-- The claim map (jwt.MapClaims) restricted to the claims the auth core
reads: `uid` (a string claim, absent when the key is missing) and `exp`
(unix seconds, absent when the key is missing), plus the remaining claims
as an opaque association list.  Equality of MapClaims is equality of the
whole claim map. -/
structure MapClaims where
  uid : Option String
  exp : Option Int
  rest : List (String × String)
deriving DecidableEq, Repr

/-- An HMAC signature, idealized: determined exactly by the signing
algorithm, the key bytes, and the signed payload. -/
structure Hmac where
  alg : Alg
  key : String
  payload : MapClaims
deriving DecidableEq, Repr

/-- A compact JWS token: the header's declared algorithm, the claim set,
and the attached signature. -/
structure Token where
  alg : Alg
  claims : MapClaims
  sig : Hmac
deriving DecidableEq, Repr

/-- TokenSigner from src/pkg/jwt.go: a symmetric key and a fixed HMAC
signing method. -/
structure TokenSigner where
  Key : String
  Method : Alg
deriving DecidableEq, Repr

/-- NewTokenSigner (jwt.go lines 15-20): stores the caller's key and fixes
the method to HS256. -/
def NewTokenSigner (key : String) : TokenSigner :=
  { Key := key, Method := .HS256 }

/-- TokenSigner.Sign (jwt.go lines 23-26): builds a token with the
signer's method over the payload and signs it with the signer's key.
Serialization of the model's claim maps cannot fail, so the Go error
return (possible only on serialization failure) does not arise. -/
def TokenSigner.Sign (ts : TokenSigner) (payload : MapClaims) : Token :=
  { alg := ts.Method
    claims := payload
    sig := { alg := ts.Method, key := ts.Key, payload := payload } }

/-- Expiry check performed by the golang-jwt validator during Parse: a
token is expired when it carries an `exp` claim strictly in the past; a
missing `exp` claim is not required by the default validator. -/
def MapClaims.expired (claims : MapClaims) (now : Int) : Bool :=
  match claims.exp with
  | some e => decide (e < now)
  | none => false

/-- TokenSigner.Verify (jwt.go lines 29-46): jwt.Parse with a keyfunc that
rejects any non-HMAC signing method, then signature validation against the
signer's key, then claim validation (expiry).  Any failure yields an error
(None); on success the exact claim map is returned. -/
def TokenSigner.Verify (ts : TokenSigner) (now : Int) (t : Token) : Option MapClaims :=
  if ¬ t.alg.isHMAC then
    none
  else if t.sig ≠ { alg := t.alg, key := ts.Key, payload := t.claims } then
    none
  else if t.claims.expired now then
    none
  else
    some t.claims

/-
HTTP requests and the middleware guards.  A request is modelled by the
parts the guards read: the URL path, the cookie jar, and the
Authorization header ("" when absent).  The signer used by a guard is
abstracted as the function `verify : String -> Option MapClaims`
(signer.Verify at the process key and current time, over the compact
string encoding of tokens), and UUID parsing (utils.StringToUUID) as
`stringToUUID : String -> Option String`.
-/

/-- An HTTP request as read by the guards. -/
structure Request where
  path : String
  cookies : List (String × String)
  authHeader : String
deriving DecidableEq, Repr

/-- r.Cookie(name): the first cookie with the given name, or an error
(None) when absent. -/
def Request.cookie (r : Request) (name : String) : Option String :=
  (r.cookies.find? (fun c => c.1 == name)).map (fun c => c.2)

/-- strings.HasPrefix over the character lists of the strings (the Go
byte-level check agrees with the character-level check on the ASCII
constants the guards use). -/
def strStartsWith (s p : String) : Bool :=
  p.data.isPrefixOf s.data

/-- strings.HasSuffix over the character lists of the strings. -/
def strEndsWith (s p : String) : Bool :=
  p.data.isSuffixOf s.data

/-- Dropping the first n characters of a string (the "Bearer " prefix is
7 ASCII characters, so this agrees with the Go byte-level slice). -/
def strDrop (s : String) (n : Nat) : String :=
  String.mk (s.data.drop n)

/-- strings.CutPrefix(s, AuthBearerPrefix) where AuthBearerPrefix is the
constant "Bearer ": Some remainder when the prefix is present, None
otherwise. -/
def cutBearer (s : String) : Option String :=
  if strStartsWith s "Bearer " then some (strDrop s 7) else none

/-- Outcome of the user-level guard: the wrapped handler is invoked (with
the uid placed in the request context on the authenticated path), or a
401 JSON body is written, or a 302 redirect is written. -/
inductive GuardResult
  | handler (ctxUid : Option String)
  | unauthorizedJson (msg : String)
  | redirectFound (location : String)
deriving DecidableEq, Repr

/-- AuthMiddleware (authguard_middleware.go): the repository and
connection pointers are modelled by presence flags (they are never
dereferenced by Guard), plus the per-instance Redirect mode. -/
structure AuthMiddleware where
  RepoPresent : Bool
  ConnPresent : Bool
  Redirect : Bool
deriving DecidableEq, Repr

/-- AuthMiddleware.unauthorized (lines 264-272): 302 to /auth/login in
redirect mode, otherwise a 401 JSON body with the given message. -/
def AuthMiddleware.unauthorized (am : AuthMiddleware) (msg : String) : GuardResult :=
  if am.Redirect then .redirectFound "/auth/login" else .unauthorizedJson msg

/-- The public-path allowlist of isUnauthenticatedAllowedPath
(lines 164-176). -/
def publicPaths : List String :=
  ["/auth/login", "/auth/register"]

/-- isUnauthenticatedAllowedPath (lines 164-176): a path is allowed
unauthenticated when it equals a public path, or ends with one and starts
with "/api/" (Go operator precedence: == binds into ||, && binds tighter
than ||). -/
def isUnauthenticatedAllowedPath (path : String) : Bool :=
  publicPaths.any (fun p => path == p || (strEndsWith path p && strStartsWith path "/api/"))

/-- AuthMiddleware.extractToken (lines 244-255): the "jwt" cookie value
when the cookie is present (whatever the value), otherwise the
Authorization header stripped of "Bearer ", otherwise "". -/
def AuthMiddleware.extractToken (_am : AuthMiddleware) (r : Request) : String :=
  match r.cookie "jwt" with
  | some v => v
  | none =>
    match cutBearer r.authHeader with
    | some after => after
    | none => ""

/-- AuthMiddleware.Guard (lines 193-234).  `verify` is signer.Verify for
the process signer.  Note that no repository lookup occurs on any path:
a verified token with a nonempty uid claim reaches the handler. -/
def AuthMiddleware.Guard (am : AuthMiddleware) (verify : String → Option MapClaims)
    (r : Request) : GuardResult :=
  let token := am.extractToken r
  if token == "" then
    if isUnauthenticatedAllowedPath r.path then .handler none
    else am.unauthorized "Token not found or malformed"
  else
    match verify token with
    | none =>
      if isUnauthenticatedAllowedPath r.path then .handler none
      else am.unauthorized "Invalid or expired token"
    | some claims =>
      match claims.uid with
      | none =>
        if isUnauthenticatedAllowedPath r.path then .handler none
        else am.unauthorized "Token missing UID"
      | some uid =>
        if uid == "" then
          if isUnauthenticatedAllowedPath r.path then .handler none
          else am.unauthorized "Token missing UID"
        else
          .handler (some uid)

/-
AdminMiddleware (admin middleware source file) and its repository
dependency.  The repository row for a super user (repository.SuperUser)
is modelled by the fields the auth core reads; UUIDs are kept as strings.
-/

/-- An admin account row as loaded by GetAdminById: id, identity fields,
role (one of "SUPER_ADMIN", "ADMIN", "EDITOR" as strings), and the
explicit permission strings. -/
structure AdminAccount where
  id : String
  email : String
  username : String
  name : String
  role : String
  permissions : List String
deriving DecidableEq, Repr

/-- Result of a GetAdminById call: a row, the pgx.ErrNoRows sentinel, or
any other database error. -/
inductive DbLookup
  | found (admin : AdminAccount)
  | noRows
  | dbError (msg : String)
deriving DecidableEq, Repr

/-- The repository dependency (repository.Queries) restricted to the one
query the admin guard issues. -/
structure AdminRepo where
  getAdminById : String → DbLookup

/-- AdminMiddleware: the repository pointer (None models nil), the
connection pointer modelled by a presence flag, and the Redirect mode. -/
structure AdminMiddleware where
  Repo : Option AdminRepo
  ConnPresent : Bool
  Redirect : Bool

/-- Outcome of the admin guard: the wrapped handler is invoked (with
admin_id and the is_admin flag in context on the authenticated path, and
an untouched context on the public login path), or a 401 JSON body, or a
302 redirect. -/
inductive AdminGuardResult
  | handler (ctx : Option (String × Bool))
  | unauthorizedJson (msg : String)
  | redirectFound (location : String)
deriving DecidableEq, Repr

/-- The HTTP status class written by each admin guard outcome (None when
the guard wrote nothing and delegated to the handler). -/
def AdminGuardResult.statusCode : AdminGuardResult → Option Nat
  | .handler _ => none
  | .unauthorizedJson _ => some 401
  | .redirectFound _ => some 302

/-- Whether the admin guard outcome is one of the unauthorized responses
written by AdminMiddleware.unauthorized. -/
def AdminGuardResult.isUnauthorized : AdminGuardResult → Bool
  | .handler _ => false
  | .unauthorizedJson _ => true
  | .redirectFound _ => true

/-- AdminMiddleware.unauthorized: 302 to /admin/login in redirect mode,
otherwise a 401 JSON body with the given message and status field. -/
def AdminMiddleware.unauthorized (am : AdminMiddleware) (msg : String) : AdminGuardResult :=
  if am.Redirect then .redirectFound "/admin/login" else .unauthorizedJson msg

/-- strings.Split(s, "/") over the character list of s: splitting on the
separator character, keeping empty fields, with [""] for the empty
string. -/
def splitSlash : List Char → List String
  | [] => [""]
  | c :: rest =>
    if c = '/' then "" :: splitSlash rest
    else
      match splitSlash rest with
      | [] => [String.mk [c]]
      | s :: ss => String.mk (c :: s.data) :: ss

/-- Scan of strings.Split(path, "/") performed by isAdminPublicPath: true
when some element equals "admin" and the next element equals "login". -/
def adminLoginAdjacent : List String → Bool
  | [] => false
  | [_] => false
  | a :: b :: rest => (a == "admin" && b == "login") || adminLoginAdjacent (b :: rest)

/-- isAdminPublicPath: the path ends with "/login" and splitting on "/"
yields "admin" immediately followed by "login". -/
def isAdminPublicPath (path : String) : Bool :=
  if strEndsWith path "/login" then adminLoginAdjacent (splitSlash path.data) else false

/-- AdminMiddleware.extractToken: the "admin_jwt" cookie, then the "jwt"
cookie, then the Authorization header stripped of "Bearer ", then "". -/
def AdminMiddleware.extractToken (_am : AdminMiddleware) (r : Request) : String :=
  match r.cookie "admin_jwt" with
  | some v => v
  | none =>
    match r.cookie "jwt" with
    | some v => v
    | none =>
      match cutBearer r.authHeader with
      | some after => after
      | none => ""

/-- Result of AdminMiddleware.verifyAdminStatus, the Go pair
(bool, error): ok b for (b, nil), err msg for (false, non-nil error). -/
inductive VerifyStatus
  | ok (isAdmin : Bool)
  | err (msg : String)
deriving DecidableEq, Repr

/-- AdminMiddleware.verifyAdminStatus: (false, nil) when the repository
is nil; an error when the uid does not parse as a UUID; then
GetAdminById, classifying pgx.ErrNoRows as (false, nil) (not an admin)
and any other error as (false, err) (database error); a found row yields
(true, nil). -/
def AdminMiddleware.verifyAdminStatus (am : AdminMiddleware)
    (stringToUUID : String → Option String) (uid : String) : VerifyStatus :=
  match am.Repo with
  | none => .ok false
  | some repo =>
    match stringToUUID uid with
    | none => .err "uuid conversion error"
    | some s_uid =>
      match repo.getAdminById s_uid with
      | .found _ => .ok true
      | .noRows => .ok false
      | .dbError e => .err e

/-- AdminMiddleware.Guard: public admin paths skip authentication; then
token extraction, verification, uid extraction; then, only when both the
repository and the connection are non-nil, verifyAdminStatus decides
between the handler (with admin_id and is_admin in context), an
unauthorized response on a verification error, and the trailing
"Admin privileges required" unauthorized response, which is also reached
when the dependencies are nil. -/
def AdminMiddleware.Guard (am : AdminMiddleware) (verify : String → Option MapClaims)
    (stringToUUID : String → Option String) (r : Request) : AdminGuardResult :=
  if isAdminPublicPath r.path then .handler none
  else
    let token := am.extractToken r
    if token == "" then am.unauthorized "Admin authentication required"
    else
      match verify token with
      | none => am.unauthorized "Invalid or expired admin token"
      | some claims =>
        match claims.uid with
        | none => am.unauthorized "Token missing UID"
        | some uid =>
          if uid == "" then am.unauthorized "Token missing UID"
          else
            if am.Repo.isSome && am.ConnPresent then
              match am.verifyAdminStatus stringToUUID uid with
              | .err _ => am.unauthorized "Error verifying admin status"
              | .ok true => .handler (some (uid, true))
              | .ok false => am.unauthorized "Admin privileges required"
            else
              am.unauthorized "Admin privileges required"

/-
Admin service permission checks.  DeleteAdmin (admin_delete.go lines
113-157), UpdateAdmin (lines 179-218) and CreateAdmin (lines 98-134) each
run an authorization segment after the acting and target rows are loaded;
each segment either writes a 403 response and rolls the transaction back,
or falls through to the rest of the handler.  The segments are modelled
as functions of the loaded rows, the context/URL id strings, and the
role field of the request DTO.
-/

/-- The constant ADMIN_ROLE_SUPERADMIN. -/
def ADMIN_ROLE_SUPERADMIN : String := "SUPER_ADMIN"

/-- Outcome of an authorization segment: fall through to the rest of the
handler, or a 403 Forbidden response with the transaction rolled back and
no row created, modified or deleted. -/
inductive SvcOutcome
  | ok
  | forbidden (msg : String)
deriving DecidableEq, Repr

/-- DeleteAdmin authorization segment (admin_delete.go lines 113-157):
a SUPER_ADMIN deleting itself is refused; otherwise deletion requires
being a SUPER_ADMIN, or holding MANAGE_USERS against a non-SUPER_ADMIN
target. -/
def deleteAdminCheck (currentAdminID targetAdminID : String)
    (currentAdmin targetAdmin : AdminAccount) : SvcOutcome :=
  let isSelfDelete := currentAdminID == targetAdminID
  let isSuperAdmin := currentAdmin.role == "SUPER_ADMIN"
  let hasManageUsersPermission := currentAdmin.permissions.contains "MANAGE_USERS"
  if isSelfDelete && isSuperAdmin then
    .forbidden "Super admins cannot delete their own accounts for security reasons"
  else
    let hasDeletePermission :=
      isSuperAdmin || (hasManageUsersPermission && targetAdmin.role != "SUPER_ADMIN")
    if !hasDeletePermission then
      .forbidden "You don't have permission to delete this admin account"
    else
      .ok

/-- UpdateAdmin authorization segment (lines 179-218): the update is
permitted on self, for a SUPER_ADMIN, or with MANAGE_USERS against a
non-SUPER_ADMIN target; then the special promotion rule refuses a DTO
role of SUPER_ADMIN from a non-SUPER_ADMIN actor.  `dtoRole` is
updateDTO.Role (None models the nil pointer). -/
def updateAdminCheck (currentAdminID targetAdminID : String)
    (currentAdmin targetAdmin : AdminAccount) (dtoRole : Option String) : SvcOutcome :=
  let isSelfUpdate := currentAdminID == targetAdminID
  let isSuperAdmin := currentAdmin.role == "SUPER_ADMIN"
  let hasManageUsersPermission := currentAdmin.permissions.contains "MANAGE_USERS"
  let hasUpdatePermission :=
    isSelfUpdate || isSuperAdmin ||
      (hasManageUsersPermission && targetAdmin.role != "SUPER_ADMIN")
  if !hasUpdatePermission then
    .forbidden "You don't have permission to update this admin account"
  else
    match dtoRole with
    | some dr =>
      if dr == ADMIN_ROLE_SUPERADMIN && currentAdmin.role != "SUPER_ADMIN" then
        .forbidden "Only SUPER_ADMIN users can promote others to SUPER_ADMIN"
      else
        .ok
    | none => .ok

/-- CreateAdmin authorization segment (lines 98-134): creation requires
being a SUPER_ADMIN or holding MANAGE_USERS; then a DTO role of
SUPER_ADMIN is refused from a non-SUPER_ADMIN actor. -/
def createAdminCheck (currentAdmin : AdminAccount) (dtoRole : String) : SvcOutcome :=
  let hasPermission :=
    currentAdmin.role == "SUPER_ADMIN" || currentAdmin.permissions.contains "MANAGE_USERS"
  if !hasPermission then
    .forbidden "Insufficient permissions to create admin accounts"
  else if dtoRole == ADMIN_ROLE_SUPERADMIN && currentAdmin.role != "SUPER_ADMIN" then
    .forbidden "Only SUPER_ADMIN users can create other SUPER_ADMIN accounts"
  else
    .ok

/-
Concrete fixtures used by counterexamples, code-bug evaluations and
witnesses.
-/

/-- A verification function that accepts exactly the string "tok",
yielding a claim map whose uid is "ghost" and which never expires: the
behaviour of signer.Verify on a structurally valid, correctly signed,
unexpired token for a deleted account. -/
def ghostVerify : String → Option MapClaims :=
  fun t => if t == "tok" then some { uid := some "ghost", exp := none, rest := [] } else none

/-- A principal store with no principals at all: every uid lookup says
the principal does not exist. -/
def noPrincipals : String → Bool :=
  fun _ => false

/-- The identity UUID parse, for witnesses where parsing succeeds. -/
def idUUID : String → Option String :=
  fun s => some s

/-- A repository whose only admin lookup outcome is a non-ErrNoRows
database error (credential store unreachable). -/
def dbErrorRepo : AdminRepo :=
  { getAdminById := fun _ => .dbError "connection refused" }

/-- A repository whose only admin lookup outcome is pgx.ErrNoRows (no
such admin). -/
def noRowsRepo : AdminRepo :=
  { getAdminById := fun _ => .noRows }

/-- A request to a non-public path carrying the "jwt" session cookie with
value "tok". -/
def reqTok : Request :=
  { path := "/dashboard", cookies := [("jwt", "tok")], authHeader := "" }

/-- A non-super admin row holding the MANAGE_USERS permission. -/
def adminA : AdminAccount :=
  { id := "a", email := "a@x", username := "a", name := "A"
    role := "ADMIN", permissions := ["MANAGE_USERS"] }

/-- A claim map whose exp (unix second 0) is in the past at now = 5. -/
def cExpired : MapClaims :=
  { uid := some "u", exp := some 0, rest := [] }

/-- A claim map whose exp (unix second 10) is not in the past at now = 5
or now = 0. -/
def cFresh : MapClaims :=
  { uid := some "u", exp := some 10, rest := [] }

/-- The expired claim map signed with the key "k". -/
def tokExpired : Token :=
  (NewTokenSigner "k").Sign cExpired

/-- The fresh claim map signed with the key "k". -/
def tokFresh : Token :=
  (NewTokenSigner "k").Sign cFresh

/-- A token whose header declares a non-HMAC algorithm (RS256), otherwise
well-formed over the fresh claim map. -/
def tokWrongAlg : Token :=
  { alg := .RS256, claims := cFresh, sig := { alg := .RS256, key := "k", payload := cFresh } }

/-- A super admin row. -/
def superS : AdminAccount :=
  { id := "s", email := "s@x", username := "s", name := "S"
    role := "SUPER_ADMIN", permissions := [] }

/-- A user-level middleware in JSON (API) mode. -/
def authApi : AuthMiddleware :=
  { RepoPresent := false, ConnPresent := false, Redirect := false }

/-- An admin middleware whose repository dependency is nil. -/
def adminNilRepo : AdminMiddleware :=
  { Repo := none, ConnPresent := true, Redirect := false }

/-- An admin middleware in JSON mode over the unreachable store. -/
def amDbErr : AdminMiddleware :=
  { Repo := some dbErrorRepo, ConnPresent := true, Redirect := false }

/-- An admin middleware in JSON mode over the empty store. -/
def amNoRows : AdminMiddleware :=
  { Repo := some noRowsRepo, ConnPresent := true, Redirect := false }

/-- A bare request (no cookies, no header) to the public login path. -/
def reqLoginBare : Request :=
  { path := "/auth/login", cookies := [], authHeader := "" }

/-- A bare request (no cookies, no header) to a non-public path. -/
def reqBare : Request :=
  { path := "/dashboard", cookies := [], authHeader := "" }

/-- A request to a non-public path carrying an empty "jwt" cookie next to
a well-formed bearer header holding the valid token "tok". -/
def reqEmptyCookie : Request :=
  { path := "/dashboard", cookies := [("jwt", "")], authHeader := "Bearer tok" }

/-
Theorems.  Each claim of the specification is settled below against the
definitions above.
-/

/-- Both response modes of AdminMiddleware.unauthorized write an
unauthorized response. -/
theorem adminUnauthorized_isUnauthorized (am : AdminMiddleware) (msg : String) :
    (am.unauthorized msg).isUnauthorized = true := by
  unfold AdminMiddleware.unauthorized
  split <;> rfl

/-- Claim C6: TokenSigner.Verify returns an error (no claims) for every
token whose exp claim is in the past regardless of signature validity,
for every token signed with a key different from the signer's configured
key, and for every token whose signing algorithm is outside the HMAC
family; and it returns claims only for an unexpired token correctly
HMAC-signed with the configured key (the returned map being exactly the
token's claim map). -/
theorem C6_verify_rejections (ts : TokenSigner) (key2 : String) (now : Int)
    (t : Token) (claims : MapClaims) :
    (t.claims.expired now = true → ts.Verify now t = none) ∧
    (t.alg.isHMAC = false → ts.Verify now t = none) ∧
    (key2 ≠ ts.Key → ts.Verify now ((NewTokenSigner key2).Sign claims) = none) ∧
    (∀ c, ts.Verify now t = some c →
      c = t.claims ∧ t.alg.isHMAC = true ∧
      t.sig = { alg := t.alg, key := ts.Key, payload := t.claims } ∧
      t.claims.expired now = false) := by
  refine ⟨?_, ?_, ?_, ?_⟩
  · intro h
    simp [TokenSigner.Verify, h]
  · intro h
    simp [TokenSigner.Verify, h]
  · intro h
    simp [TokenSigner.Verify, TokenSigner.Sign, NewTokenSigner, Alg.isHMAC, Hmac.mk.injEq]
    intro hk
    exact absurd hk h
  · intro c hc
    unfold TokenSigner.Verify at hc
    split at hc
    · exact absurd hc (by simp)
    next halg =>
      split at hc
      · exact absurd hc (by simp)
      next hsig =>
        split at hc
        · exact absurd hc (by simp)
        next hexp =>
          refine ⟨(Option.some.inj hc).symm, ?_, ?_, ?_⟩
          · simpa using halg
          · simpa using hsig
          · simpa using hexp

/-- Witness for C6 at concrete tokens: the expired token, the RS256
token, and a token signed with the different key "kk" are all rejected by
the signer configured with the key "k"; the fresh correctly signed token
is accepted and its inversion facts hold. -/
theorem C6_witness :
    ((NewTokenSigner "k").Verify 5 tokExpired = none) ∧
    ((NewTokenSigner "k").Verify 5 tokWrongAlg = none) ∧
    ((NewTokenSigner "k").Verify 5 ((NewTokenSigner "kk").Sign cFresh) = none) ∧
    (cFresh = tokFresh.claims ∧ tokFresh.alg.isHMAC = true ∧
      tokFresh.sig = { alg := tokFresh.alg, key := "k", payload := tokFresh.claims } ∧
      tokFresh.claims.expired 5 = false) :=
  ⟨(C6_verify_rejections (NewTokenSigner "k") "kk" 5 tokExpired cFresh).1 (by decide),
   (C6_verify_rejections (NewTokenSigner "k") "kk" 5 tokWrongAlg cFresh).2.1 (by decide),
   (C6_verify_rejections (NewTokenSigner "k") "kk" 5 tokExpired cFresh).2.2.1 (by decide),
   (C6_verify_rejections (NewTokenSigner "k") "kk" 5 tokFresh cFresh).2.2.2 cFresh (by decide)⟩

/-- Claim C7: for every claim map whose exp claim is not in the past and
every key, Verify with that key applied to the output of Sign with the
same key succeeds and returns the original claim map unchanged. -/
theorem C7_sign_verify_roundtrip (key : String) (now : Int) (claims : MapClaims)
    (h : claims.expired now = false) :
    (NewTokenSigner key).Verify now ((NewTokenSigner key).Sign claims) = some claims := by
  simp [NewTokenSigner, TokenSigner.Sign, TokenSigner.Verify, Alg.isHMAC, h]

/-- Witness for C7: the fresh claim map round-trips through Sign and
Verify at the key "k" and time 0. -/
theorem C7_witness :
    cFresh.expired 0 = false ∧
    (NewTokenSigner "k").Verify 0 ((NewTokenSigner "k").Sign cFresh) = some cFresh :=
  ⟨by decide, C7_sign_verify_roundtrip "k" 0 cFresh (by decide)⟩

/-- Claim C1: for every request whose path is not an admin public path,
if the AdminMiddleware repository dependency is nil then Guard never
invokes the protected handler and writes an unauthorized response, for
any extracted token including a structurally valid, correctly signed and
unexpired one (any `verify` outcome). -/
theorem C1_nil_repo_fails_closed (am : AdminMiddleware)
    (verify : String → Option MapClaims) (stringToUUID : String → Option String)
    (r : Request) (hrepo : am.Repo = none)
    (hpath : isAdminPublicPath r.path = false) :
    (am.Guard verify stringToUUID r).isUnauthorized = true := by
  unfold AdminMiddleware.Guard
  simp only [hpath, Bool.false_eq_true, if_false, hrepo, Option.isSome_none, Bool.false_and]
  repeat' split
  all_goals exact adminUnauthorized_isUnauthorized am _

/-- Witness for C1: with a nil repository, a request to the non-public
path /dashboard carrying a token that verifies to a claim map with a
nonempty uid is still answered with an unauthorized response. -/
theorem C1_witness :
    adminNilRepo.Repo = none ∧
    isAdminPublicPath reqTok.path = false ∧
    ghostVerify (adminNilRepo.extractToken reqTok) =
      some { uid := some "ghost", exp := none, rest := [] } ∧
    (adminNilRepo.Guard ghostVerify idUUID reqTok).isUnauthorized = true :=
  ⟨rfl, by decide, by decide,
   C1_nil_repo_fails_closed adminNilRepo ghostVerify idUUID reqTok rfl (by decide)⟩

/-- Claim C2 (code bug evaluation): at the failing input — a verified
token whose uid claim is "ghost" while no principal with id "ghost"
exists in any store — the user-level AuthMiddleware.Guard still invokes
the protected handler with uid "ghost" in the request context; the guard
performs no principal-existence lookup on any path. -/
theorem C2_user_guard_no_existence_check :
    noPrincipals "ghost" = false ∧
    authApi.Guard ghostVerify reqTok = .handler (some "ghost") := by
  exact ⟨rfl, by decide⟩

/-- Claim C9: for every request carrying no token, AuthMiddleware.Guard
invokes the next handler exactly when the path is in the public
allowlist, and otherwise writes the unauthorized response of the guard's
configured mode (302 redirect or 401 JSON). -/
theorem C9_zero_token_allowlist (am : AuthMiddleware)
    (verify : String → Option MapClaims) (r : Request)
    (h : am.extractToken r = "") :
    (isUnauthenticatedAllowedPath r.path = true → am.Guard verify r = .handler none) ∧
    (isUnauthenticatedAllowedPath r.path = false →
      am.Guard verify r =
        (if am.Redirect then .redirectFound "/auth/login"
         else .unauthorizedJson "Token not found or malformed")) := by
  constructor
  · intro hp
    unfold AuthMiddleware.Guard
    simp [h, hp]
  · intro hp
    unfold AuthMiddleware.Guard AuthMiddleware.unauthorized
    simp [h, hp]

/-- Witness for C9: a bare request reaches the handler on /auth/login and
is answered 401 JSON on /dashboard. -/
theorem C9_witness :
    authApi.extractToken reqLoginBare = "" ∧
    authApi.Guard ghostVerify reqLoginBare = .handler none ∧
    authApi.extractToken reqBare = "" ∧
    authApi.Guard ghostVerify reqBare =
      (if authApi.Redirect then .redirectFound "/auth/login"
       else .unauthorizedJson "Token not found or malformed") :=
  ⟨rfl,
   (C9_zero_token_allowlist authApi ghostVerify reqLoginBare rfl).1 (by decide),
   rfl,
   (C9_zero_token_allowlist authApi ghostVerify reqBare rfl).2 (by decide)⟩

/-- Claim C10: whenever the "jwt" cookie is present its value is the
extracted token, regardless of the value and of any Authorization header;
consequently an empty "jwt" cookie on a non-public path is rejected even
when a valid bearer token is also present. -/
theorem C10_cookie_takes_precedence (am : AuthMiddleware) (r : Request)
    (v : String) (verify : String → Option MapClaims)
    (hc : r.cookie "jwt" = some v) :
    am.extractToken r = v ∧
    (v = "" → isUnauthenticatedAllowedPath r.path = false →
      am.Guard verify r = am.unauthorized "Token not found or malformed") := by
  have he : am.extractToken r = v := by
    unfold AuthMiddleware.extractToken
    rw [hc]
  refine ⟨he, ?_⟩
  intro hv hp
  unfold AuthMiddleware.Guard
  rw [he, hv]
  simp [hp]

/-- Witness for C10: the request with an empty "jwt" cookie and the valid
bearer token "tok" yields an empty extracted token and an unauthorized
response on /dashboard. -/
theorem C10_witness :
    reqEmptyCookie.cookie "jwt" = some "" ∧
    cutBearer reqEmptyCookie.authHeader = some "tok" ∧
    ghostVerify "tok" ≠ none ∧
    authApi.extractToken reqEmptyCookie = "" ∧
    authApi.Guard ghostVerify reqEmptyCookie =
      authApi.unauthorized "Token not found or malformed" :=
  ⟨rfl, by decide, by decide,
   (C10_cookie_takes_precedence authApi reqEmptyCookie "" ghostVerify rfl).1,
   (C10_cookie_takes_precedence authApi reqEmptyCookie "" ghostVerify rfl).2 rfl (by decide)⟩

/-- Counterexample to claim C3 as stated: a self-update is not permitted
for an actor of every role — the non-super admin adminA updating itself
with a DTO that requests the role SUPER_ADMIN is refused with 403 by the
promotion rule. -/
theorem C3_counterexample :
    adminA.role = "ADMIN" ∧
    updateAdminCheck "a" "a" adminA adminA (some "SUPER_ADMIN") =
      .forbidden "Only SUPER_ADMIN users can promote others to SUPER_ADMIN" := by
  exact ⟨rfl, by decide⟩

/-- Claim C3 (amended): for every admin acting on itself, the delete
operation is refused with 403 whenever the actor's role is SUPER_ADMIN,
and the update operation is permitted for an actor of any role provided
the update does not request the role SUPER_ADMIN while the actor is not a
SUPER_ADMIN. -/
theorem C3_self_action (a : AdminAccount) (aid : String) (dtoRole : Option String) :
    (a.role = "SUPER_ADMIN" →
      deleteAdminCheck aid aid a a =
        .forbidden "Super admins cannot delete their own accounts for security reasons") ∧
    ((dtoRole = some "SUPER_ADMIN" → a.role = "SUPER_ADMIN") →
      updateAdminCheck aid aid a a dtoRole = .ok) := by
  constructor
  · intro h
    unfold deleteAdminCheck
    simp [h]
  · intro h
    unfold updateAdminCheck ADMIN_ROLE_SUPERADMIN
    cases dtoRole with
    | none => simp
    | some dr =>
      by_cases hdr : dr = "SUPER_ADMIN"
      · have hr : a.role = "SUPER_ADMIN" := h (by rw [hdr])
        simp [hdr, hr]
      · simp [hdr]

/-- Witness for C3 (amended): the super admin superS may not delete
itself, while the plain admin adminA may self-update with a non-super
role in the DTO. -/
theorem C3_witness :
    superS.role = "SUPER_ADMIN" ∧
    deleteAdminCheck "s" "s" superS superS =
      .forbidden "Super admins cannot delete their own accounts for security reasons" ∧
    updateAdminCheck "a" "a" adminA adminA (some "ADMIN") = .ok :=
  ⟨rfl,
   (C3_self_action superS "s" (some "ADMIN")).1 rfl,
   (C3_self_action adminA "a" (some "ADMIN")).2 (by decide)⟩

/-- Claim C4: a non-SUPER_ADMIN actor attempting to create an account
with role SUPER_ADMIN, or to set any account's role to SUPER_ADMIN, is
refused with 403 (no account created or modified), for every permission
set including one holding MANAGE_USERS. -/
theorem C4_super_role_grant_requires_super (a target : AdminAccount)
    (aid tid : String) (h : a.role ≠ "SUPER_ADMIN") :
    (∃ msg, createAdminCheck a "SUPER_ADMIN" = .forbidden msg) ∧
    (∃ msg, updateAdminCheck aid tid a target (some "SUPER_ADMIN") = .forbidden msg) := by
  have hb : (a.role == "SUPER_ADMIN") = false := by
    simp [h]
  constructor
  · unfold createAdminCheck ADMIN_ROLE_SUPERADMIN
    cases hm : a.permissions.contains "MANAGE_USERS" <;> simp [hb, hm, h]
  · unfold updateAdminCheck ADMIN_ROLE_SUPERADMIN
    cases hsel : (aid == tid) <;>
      cases hm : a.permissions.contains "MANAGE_USERS" <;>
      cases htr : (target.role == "SUPER_ADMIN") <;>
      simp [hsel, hm, htr, hb, h, bne]

/-- Witness for C4: adminA (role ADMIN, holding MANAGE_USERS) can neither
create a SUPER_ADMIN account nor set superS's role to SUPER_ADMIN. -/
theorem C4_witness :
    adminA.role ≠ "SUPER_ADMIN" ∧
    adminA.permissions.contains "MANAGE_USERS" = true ∧
    (∃ msg, createAdminCheck adminA "SUPER_ADMIN" = .forbidden msg) ∧
    (∃ msg, updateAdminCheck "a" "s" adminA superS (some "SUPER_ADMIN") = .forbidden msg) :=
  ⟨by decide, by decide,
   (C4_super_role_grant_requires_super adminA superS "a" "s" (by decide)).1,
   (C4_super_role_grant_requires_super adminA superS "a" "s" (by decide)).2⟩

/-- Claim C5: a non-SUPER_ADMIN actor acting on a distinct SUPER_ADMIN
target is refused with 403 on both the update and the delete operation,
regardless of the actor's permission set. -/
theorem C5_non_super_cannot_touch_super (a target : AdminAccount)
    (aid tid : String) (dtoRole : Option String)
    (ha : a.role ≠ "SUPER_ADMIN") (ht : target.role = "SUPER_ADMIN")
    (hid : aid ≠ tid) :
    updateAdminCheck aid tid a target dtoRole =
      .forbidden "You don't have permission to update this admin account" ∧
    deleteAdminCheck aid tid a target =
      .forbidden "You don't have permission to delete this admin account" := by
  have hsel : (aid == tid) = false := by
    simp [hid]
  have hb : (a.role == "SUPER_ADMIN") = false := by
    simp [ha]
  constructor
  · unfold updateAdminCheck
    simp [hsel, hb, ht]
  · unfold deleteAdminCheck
    simp [hsel, hb, ht]

/-- Witness for C5: adminA (holding MANAGE_USERS) can neither update nor
delete the distinct super admin superS. -/
theorem C5_witness :
    adminA.role ≠ "SUPER_ADMIN" ∧ superS.role = "SUPER_ADMIN" ∧
    updateAdminCheck "a" "s" adminA superS none =
      .forbidden "You don't have permission to update this admin account" ∧
    deleteAdminCheck "a" "s" adminA superS =
      .forbidden "You don't have permission to delete this admin account" :=
  ⟨by decide, rfl,
   (C5_non_super_cannot_touch_super adminA superS "a" "s" none (by decide) rfl (by decide)).1,
   (C5_non_super_cannot_touch_super adminA superS "a" "s" none (by decide) rfl (by decide)).2⟩

/-- Counterexample to claim C8 as stated: when the admin lookup fails
with a database error other than no-rows, the guard answers with the 401
unauthorized status class — the same status class it uses for an
authenticated non-admin — not with a distinguishable server-fault status;
only the message differs. -/
theorem C8_counterexample :
    dbErrorRepo.getAdminById "ghost" = .dbError "connection refused" ∧
    amDbErr.Guard ghostVerify idUUID reqTok =
      .unauthorizedJson "Error verifying admin status" ∧
    amNoRows.Guard ghostVerify idUUID reqTok =
      .unauthorizedJson "Admin privileges required" ∧
    (amDbErr.Guard ghostVerify idUUID reqTok).statusCode =
      (amNoRows.Guard ghostVerify idUUID reqTok).statusCode := by
  exact ⟨rfl, by decide, by decide, by decide⟩

/-- Claim C8 (amended): verifyAdminStatus never classifies a database
error as not-found — a lookup failing with an error other than
pgx.ErrNoRows is surfaced as an error result — but the Guard then writes
the same unauthorized status class (401 JSON or 302 redirect) it uses for
an authenticated non-admin, distinguishable only by the message
"Error verifying admin status". -/
theorem C8_db_error_conflated_status (am : AdminMiddleware) (repo : AdminRepo)
    (verify : String → Option MapClaims) (stringToUUID : String → Option String)
    (r : Request) (claims : MapClaims) (uid s e : String)
    (hrepo : am.Repo = some repo) (hconn : am.ConnPresent = true)
    (hpath : isAdminPublicPath r.path = false)
    (hne : (am.extractToken r == "") = false)
    (htok : verify (am.extractToken r) = some claims)
    (huid : claims.uid = some uid) (hu : (uid == "") = false)
    (hparse : stringToUUID uid = some s)
    (hdb : repo.getAdminById s = .dbError e) :
    am.verifyAdminStatus stringToUUID uid = .err e ∧
    am.Guard verify stringToUUID r = am.unauthorized "Error verifying admin status" ∧
    (am.unauthorized "Error verifying admin status").statusCode =
      (am.unauthorized "Admin privileges required").statusCode := by
  have hv : am.verifyAdminStatus stringToUUID uid = .err e := by
    unfold AdminMiddleware.verifyAdminStatus
    simp [hrepo, hparse, hdb]
  refine ⟨hv, ?_, ?_⟩
  · unfold AdminMiddleware.Guard
    simp [hpath, hne, htok, huid, hu, hrepo, hconn, hv]
  · cases hr : am.Redirect <;>
      simp [AdminMiddleware.unauthorized, hr, AdminGuardResult.statusCode]

/-- Witness for C8 (amended): the unreachable-store middleware at the
concrete request answers the database error with the same 401 class as
the empty-store middleware answers a non-admin. -/
theorem C8_witness :
    amDbErr.verifyAdminStatus idUUID "ghost" = .err "connection refused" ∧
    amDbErr.Guard ghostVerify idUUID reqTok =
      amDbErr.unauthorized "Error verifying admin status" ∧
    (amDbErr.unauthorized "Error verifying admin status").statusCode =
      (amDbErr.unauthorized "Admin privileges required").statusCode :=
  ⟨(C8_db_error_conflated_status amDbErr dbErrorRepo ghostVerify idUUID reqTok
      { uid := some "ghost", exp := none, rest := [] } "ghost" "ghost" "connection refused"
      rfl rfl (by decide) (by decide) (by decide) rfl (by decide) rfl rfl).1,
   (C8_db_error_conflated_status amDbErr dbErrorRepo ghostVerify idUUID reqTok
      { uid := some "ghost", exp := none, rest := [] } "ghost" "ghost" "connection refused"
      rfl rfl (by decide) (by decide) (by decide) rfl (by decide) rfl rfl).2.1,
   (C8_db_error_conflated_status amDbErr dbErrorRepo ghostVerify idUUID reqTok
      { uid := some "ghost", exp := none, rest := [] } "ghost" "ghost" "connection refused"
      rfl rfl (by decide) (by decide) (by decide) rfl (by decide) rfl rfl).2.2⟩

end Everato
